import Mathlib

/-!
Verification of the opensnitch daemon decision core (`daemon/main.go`).

The daemon's external collaborators (connection resolution, the rule
package's data types, the UI oracle transport, logging, netfilter) are
parameterized: `onPacket` is embedded as a pure function from the results
the collaborators would return for one packet to a `Trace` of the effects
the function performs (verdicts set, rule-store appends, statistics
events, log lines).  Startup (`main`) and teardown (`doCleanup` plus the
signal handler) are embedded as event traces.
-/

namespace Daemon

/-- Netfilter verdict applied to a packet (`NF_ACCEPT` / `NF_DROP`). -/
inductive Verdict
  | Accept
  | Drop
deriving DecidableEq, Repr

/-- Modelled from the spec: the rule package (`daemon/rule`) is not part of
the given source; per the data model a rule action is `Allow` or `Deny`. -/
inductive Action
  | Allow
  | Deny
deriving DecidableEq, Repr

/-- Modelled from the spec: a rule's persistence tier — transient (`Once`),
session-scoped (`Restart`, the spec's `UntilRestart`) or durable (`Always`).
The source refers to `rule.Restart` and `rule.Always`. -/
inductive Duration
  | Once
  | Restart
  | Always
deriving DecidableEq, Repr

/-- Modelled from the spec: an operator is a predicate description over a
connection; it carries the attribute it inspects (`operand`) and renders to
a stable human-readable string (`descr`, the source's `Operator.String()`). -/
structure Operator where
  operand : String
  descr : String
deriving DecidableEq, Repr

/-- Modelled from the spec: a rule is `{name, action, operator, duration}`.
Only the fields `onPacket` reads are carried. -/
structure Rule where
  name : String
  action : Action
  duration : Duration
  operator : Operator
deriving DecidableEq, Repr

/-- Modelled from the spec: the connection record produced by the
Connection Resolver.  Only the fields `onPacket` reads are carried:
`con.Process.Path`, `con.To()` and `con.DstPort`. -/
structure Connection where
  procPath : String
  dst : String
  dstPort : Nat
deriving DecidableEq, Repr

/-- Modelled from the spec: logging is an external collaborator; terminal
colorization is content-preserving decoration and is elided (identity). -/
def logGreen (s : String) : String := s

/-- Modelled from the spec: see `logGreen`. -/
def logRed (s : String) : String := s

/-- Modelled from the spec: see `logGreen`. -/
def logDim (s : String) : String := s

/-- Modelled from the spec: see `logGreen`. -/
def logBold (s : String) : String := s

/-- Modelled from the spec: the string form of a rule action, as produced
by `string(r.Action)` in the source. -/
def actionName : Action → String
  | Action.Allow => "allow"
  | Action.Deny => "deny"

/-- Modelled from the spec: the catch-all operator operand (`rule.OpTrue`),
whose rule name is rendered dim in the accept log line. -/
def opTrue : String := "true"

/-- The observable effects of one `onPacket` invocation.  `faulted` records
a nil-pointer dereference (a Go panic): the function aborts there and no
further effect is recorded. -/
structure Trace where
  verdicts : List Verdict := []
  parseCalls : Nat := 0
  matchCalls : Nat := 0
  askCalls : Nat := 0
  adds : List (Rule × Bool) := []
  dnsResponses : Nat := 0
  ignored : Nat := 0
  connectionEvents : List (Connection × Option Rule × Bool) := []
  confirmations : List String := []
  errors : List String := []
  debugLines : List String := []
  warnLines : List String := []
  faulted : Bool := false
deriving DecidableEq, Repr

/-- The results the external collaborators return for one packet:
`dns.TrackAnswers`, `conman.Parse`, `rules.FindFirstMatch`,
`uiClient.Ask` (a possibly-nil rule pointer and the reachability flag),
and the error outcome of `rules.Add` as a function of the persist flag. -/
structure OnPacketEnv where
  isDNSAnswer : Bool
  parsedConn : Option Connection
  firstMatch : Option Rule
  askResult : Option Rule × Bool
  addErr : Bool → Option String

/-- Lines 154–169 of the source: record `stats.OnConnectionEvent(con, r,
missed)`, then set the final verdict from `r.Action`.  A nil `r` faults at
the `r.Action` dereference, after the statistics call. -/
def setFinalVerdict (con : Connection) (r : Option Rule) (missed : Bool) (t : Trace) : Trace :=
  let t1 := { t with connectionEvents := t.connectionEvents ++ [(con, r, missed)] }
  match r with
  | none => { t1 with faulted := true }
  | some r =>
    if r.action = Action.Allow then
      let ruleName := if r.operator.operand = opTrue then logDim r.name else logGreen r.name
      { t1 with
        verdicts := t1.verdicts ++ [Verdict.Accept],
        debugLines := t1.debugLines ++
          [logBold (logGreen "✔") ++ " " ++ logBold con.procPath ++ " -> " ++
            logBold con.dst ++ ":" ++ toString con.dstPort ++ " (" ++ ruleName ++ ")"] }
    else
      { t1 with
        verdicts := t1.verdicts ++ [Verdict.Drop],
        warnLines := t1.warnLines ++
          [logBold (logRed "✘") ++ " " ++ logBold con.procPath ++ " -> " ++
            logBold con.dst ++ ":" ++ toString con.dstPort ++ " (" ++ logRed r.name ++ ")"] }

/-- Lines 94–170 of the source: the per-packet pipeline.  DNS answers are
accepted on the fast path; unparseable packets are accepted and counted as
ignored; otherwise the first matching static rule, or failing that the
oracle's answer, decides, with persistence of the oracle's rule gated on
reachability and on the rule's duration. -/
def onPacket (env : OnPacketEnv) : Trace :=
  if env.isDNSAnswer then
    { verdicts := [Verdict.Accept], dnsResponses := 1 }
  else
    match env.parsedConn with
    | none => { verdicts := [Verdict.Accept], parseCalls := 1, ignored := 1 }
    | some con =>
      match env.firstMatch with
      | some r =>
        setFinalVerdict con (some r) false { parseCalls := 1, matchCalls := 1 }
      | none =>
        let connected := env.askResult.2
        let base : Trace := { parseCalls := 1, matchCalls := 1, askCalls := 1 }
        if connected then
          match env.askResult.1 with
          | none => { base with faulted := true }
          | some r =>
            let actionStr :=
              if r.action = Action.Allow then logGreen (actionName r.action)
              else logRed (actionName r.action)
            let persisted : Bool × String × List (Rule × Bool) × List String :=
              match r.duration with
              | Duration.Restart =>
                match env.addErr false with
                | some e => (false, "Added", [(r, false)], ["Error while adding rule: " ++ e])
                | none => (true, "Added", [(r, false)], [])
              | Duration.Always =>
                match env.addErr true with
                | some e => (false, "Saved", [(r, true)], ["Error while saving rule: " ++ e])
                | none => (true, "Saved", [(r, true)], [])
              | Duration.Once => (false, "", [], [])
            let t := { base with
              adds := persisted.2.2.1,
              errors := persisted.2.2.2,
              confirmations :=
                if persisted.1 then
                  [persisted.2.1 ++ " new rule: " ++ actionStr ++ " if " ++ r.operator.descr]
                else [] }
            setFinalVerdict con (some r) true t
        else
          setFinalVerdict con env.askResult.1 true base

/-- The three kernel interception hooks the daemon toggles. -/
inductive Hook
  | dnsResponses
  | connections
  | rejectMarked
deriving DecidableEq, Repr

/-- Lifecycle events of the daemon process. -/
inductive Ev
  | expandedPath
  | signalsInstalled
  | loadedRules
  | clientCreated
  | workersStarted (n : Nat)
  | queueCreated
  | packetStreamOpened
  | hook (h : Hook) (enabled : Bool)
  | readLoopEntered
  | fatal (msg : String)
  | exited (code : Nat)
deriving DecidableEq, Repr

/-- Lines 87–92 of the source: `doCleanup` retracts the hooks —
DNS-response queueing, then connection queueing, then mark-based
rejection. -/
def doCleanup : List Ev :=
  [Ev.hook Hook.dnsResponses false, Ev.hook Hook.connections false,
   Ev.hook Hook.rejectMarked false]

/-- Lines 59–65 of the source: on any handled signal the listener runs
`doCleanup` and then `os.Exit(0)`. -/
def signalHandler : List Ev := doCleanup ++ [Ev.exited 0]

/-- The failure outcomes of the fallible startup steps: `core.ExpandPath`,
`rules.Load`, `netfilter.NewNFQueue`, and the three firewall hook
installations. -/
structure StartupEnv where
  expandErr : Option String := none
  loadErr : Option String := none
  queueErr : Option String := none
  dnsHookErr : Option String := none
  connHookErr : Option String := none
  rejectHookErr : Option String := none
  workers : Nat := 16

/-- Lines 188–226 of the source: the startup sequence from path expansion
to the packet read loop.  `log.Fatal` terminates the process, ending the
trace with `Ev.fatal`. -/
def mainStartup (env : StartupEnv) : List Ev :=
  match env.expandErr with
  | some e => [Ev.fatal e]
  | none =>
    match env.loadErr with
    | some e => [Ev.expandedPath, Ev.signalsInstalled, Ev.fatal e]
    | none =>
      match env.queueErr with
      | some e =>
        [Ev.expandedPath, Ev.signalsInstalled, Ev.loadedRules, Ev.clientCreated,
         Ev.workersStarted env.workers, Ev.fatal e]
      | none =>
        match env.dnsHookErr with
        | some e =>
          [Ev.expandedPath, Ev.signalsInstalled, Ev.loadedRules, Ev.clientCreated,
           Ev.workersStarted env.workers, Ev.queueCreated, Ev.packetStreamOpened,
           Ev.fatal e]
        | none =>
          match env.connHookErr with
          | some e =>
            [Ev.expandedPath, Ev.signalsInstalled, Ev.loadedRules, Ev.clientCreated,
             Ev.workersStarted env.workers, Ev.queueCreated, Ev.packetStreamOpened,
             Ev.hook Hook.dnsResponses true, Ev.fatal e]
          | none =>
            match env.rejectHookErr with
            | some e =>
              [Ev.expandedPath, Ev.signalsInstalled, Ev.loadedRules, Ev.clientCreated,
               Ev.workersStarted env.workers, Ev.queueCreated, Ev.packetStreamOpened,
               Ev.hook Hook.dnsResponses true, Ev.hook Hook.connections true,
               Ev.fatal e]
            | none =>
              [Ev.expandedPath, Ev.signalsInstalled, Ev.loadedRules, Ev.clientCreated,
               Ev.workersStarted env.workers, Ev.queueCreated, Ev.packetStreamOpened,
               Ev.hook Hook.dnsResponses true, Ev.hook Hook.connections true,
               Ev.hook Hook.rejectMarked true, Ev.readLoopEntered]

/-! Helper lemmas: the effect of `setFinalVerdict` on each trace field. -/

@[simp]
theorem setFinalVerdict_adds (con : Connection) (r : Option Rule) (m : Bool) (t : Trace) :
    (setFinalVerdict con r m t).adds = t.adds := by
  cases r with
  | none => rfl
  | some r => by_cases h : r.action = Action.Allow <;> simp [setFinalVerdict, h]

@[simp]
theorem setFinalVerdict_errors (con : Connection) (r : Option Rule) (m : Bool) (t : Trace) :
    (setFinalVerdict con r m t).errors = t.errors := by
  cases r with
  | none => rfl
  | some r => by_cases h : r.action = Action.Allow <;> simp [setFinalVerdict, h]

@[simp]
theorem setFinalVerdict_confirmations (con : Connection) (r : Option Rule) (m : Bool)
    (t : Trace) :
    (setFinalVerdict con r m t).confirmations = t.confirmations := by
  cases r with
  | none => rfl
  | some r => by_cases h : r.action = Action.Allow <;> simp [setFinalVerdict, h]

@[simp]
theorem setFinalVerdict_faulted_none (con : Connection) (m : Bool) (t : Trace) :
    (setFinalVerdict con none m t).faulted = true := rfl

@[simp]
theorem setFinalVerdict_faulted_some (con : Connection) (r : Rule) (m : Bool) (t : Trace) :
    (setFinalVerdict con (some r) m t).faulted = t.faulted := by
  by_cases h : r.action = Action.Allow <;> simp [setFinalVerdict, h]

@[simp]
theorem setFinalVerdict_verdicts_none (con : Connection) (m : Bool) (t : Trace) :
    (setFinalVerdict con none m t).verdicts = t.verdicts := rfl

@[simp]
theorem setFinalVerdict_verdicts_some (con : Connection) (r : Rule) (m : Bool) (t : Trace) :
    (setFinalVerdict con (some r) m t).verdicts =
      t.verdicts ++ [if r.action = Action.Allow then Verdict.Accept else Verdict.Drop] := by
  by_cases h : r.action = Action.Allow <;> simp [setFinalVerdict, h]

@[simp]
theorem setFinalVerdict_connectionEvents (con : Connection) (r : Option Rule) (m : Bool)
    (t : Trace) :
    (setFinalVerdict con r m t).connectionEvents = t.connectionEvents ++ [(con, r, m)] := by
  cases r with
  | none => rfl
  | some r => by_cases h : r.action = Action.Allow <;> simp [setFinalVerdict, h]

/-! Concrete collaborator results used as witnesses. -/

/-- A concrete resolved connection (the spec's Scenario 1 endpoint). -/
def conW : Connection := { procPath := "/usr/bin/curl", dst := "93.184.216.34", dstPort := 443 }

/-- A concrete operator. -/
def opW : Operator := { operand := "dest.host", descr := "dest.host == example.com" }

/-- A concrete oracle-supplied rule of duration `Restart`. -/
def ruleRestartW : Rule :=
  { name := "curl-session", action := Action.Allow, duration := Duration.Restart,
    operator := opW }

/-! Claim theorems. -/

/-- C6: a packet classified as a DNS-answer-only packet is accepted
immediately and counted as a DNS observation; no connection is resolved,
no rule matching occurs, the oracle is not consulted and the store is not
touched (the whole trace is exactly the fast-path trace). -/
theorem onPacket_dns_fast_path (env : OnPacketEnv) (h : env.isDNSAnswer = true) :
    onPacket env = { verdicts := [Verdict.Accept], dnsResponses := 1 } := by
  simp [onPacket, h]

/-- Witness for C6 at a concrete environment. -/
theorem onPacket_dns_fast_path_witness :
    onPacket
        { isDNSAnswer := true, parsedConn := none, firstMatch := none,
          askResult := (none, false), addErr := fun _ => none } =
      { verdicts := [Verdict.Accept], dnsResponses := 1 } :=
  onPacket_dns_fast_path
    { isDNSAnswer := true, parsedConn := none, firstMatch := none,
      askResult := (none, false), addErr := fun _ => none } rfl

/-- C7: a non-DNS packet that the Connection Resolver cannot parse is
accepted and counted as ignored; no rule matching, no oracle call and no
store mutation occur (the whole trace is exactly the ignore trace). -/
theorem onPacket_unparseable_ignored (env : OnPacketEnv) (h1 : env.isDNSAnswer = false)
    (h2 : env.parsedConn = none) :
    onPacket env = { verdicts := [Verdict.Accept], parseCalls := 1, ignored := 1 } := by
  simp [onPacket, h1, h2]

/-- Witness for C7 at a concrete environment. -/
theorem onPacket_unparseable_ignored_witness :
    onPacket
        { isDNSAnswer := false, parsedConn := none, firstMatch := none,
          askResult := (none, false), addErr := fun _ => none } =
      { verdicts := [Verdict.Accept], parseCalls := 1, ignored := 1 } :=
  onPacket_unparseable_ignored
    { isDNSAnswer := false, parsedConn := none, firstMatch := none,
      askResult := (none, false), addErr := fun _ => none } rfl rfl

/-- C4 counterexample: teardown does not retract connection queueing
before DNS-response queueing — the signal handler's trace is not the
claimed sequence, and the connection-queueing retraction does not precede
the DNS-response retraction. -/
theorem teardown_order_counterexample :
    signalHandler ≠
      [Ev.hook Hook.connections false, Ev.hook Hook.dnsResponses false,
       Ev.hook Hook.rejectMarked false, Ev.exited 0] ∧
    ¬ signalHandler.indexOf (Ev.hook Hook.connections false) <
        signalHandler.indexOf (Ev.hook Hook.dnsResponses false) := by
  decide

/-- C4 amended: on a termination signal the handler retracts DNS-response
queueing first, then connection queueing, then mark-based rejection, and
then terminates the process with exit code 0. -/
theorem teardown_order :
    signalHandler =
      [Ev.hook Hook.dnsResponses false, Ev.hook Hook.connections false,
       Ev.hook Hook.rejectMarked false, Ev.exited 0] := rfl

/-- C5 counterexample: in a fully successful startup the read loop is
reached, yet the DNS-response hook is not installed before the worker pool
starts — the workers start first, refuting the claimed step order. -/
theorem startup_order_counterexample :
    Ev.readLoopEntered ∈ mainStartup {} ∧
    ¬ (mainStartup {}).indexOf (Ev.hook Hook.dnsResponses true) <
        (mainStartup {}).indexOf (Ev.workersStarted 16) := by
  decide

/-- C5 amended: startup loads the rule store, then starts the worker pool,
then creates the queue and opens the packet stream, then installs the
hooks (DNS-response capture, connection queueing, mark-based rejection, in
that order), then enters the read loop; a rule-loading failure aborts
before any hook is installed, and any hook-installation failure aborts
before the read loop. -/
theorem startup_order (env : StartupEnv) :
    (Ev.readLoopEntered ∈ mainStartup env →
      mainStartup env =
        [Ev.expandedPath, Ev.signalsInstalled, Ev.loadedRules, Ev.clientCreated,
         Ev.workersStarted env.workers, Ev.queueCreated, Ev.packetStreamOpened,
         Ev.hook Hook.dnsResponses true, Ev.hook Hook.connections true,
         Ev.hook Hook.rejectMarked true, Ev.readLoopEntered]) ∧
    (env.loadErr ≠ none →
      Ev.readLoopEntered ∉ mainStartup env ∧ ∀ h b, Ev.hook h b ∉ mainStartup env) ∧
    (env.dnsHookErr ≠ none ∨ env.connHookErr ≠ none ∨ env.rejectHookErr ≠ none →
      Ev.readLoopEntered ∉ mainStartup env) := by
  obtain ⟨e1, e2, e3, e4, e5, e6, n⟩ := env
  cases e1 <;> cases e2 <;> cases e3 <;> cases e4 <;> cases e5 <;> cases e6 <;>
    simp [mainStartup]

/-- Witness for C5 amended: the successful trace, and abort before the
read loop on a rule-loading failure. -/
theorem startup_order_witness :
    mainStartup {} =
      [Ev.expandedPath, Ev.signalsInstalled, Ev.loadedRules, Ev.clientCreated,
       Ev.workersStarted 16, Ev.queueCreated, Ev.packetStreamOpened,
       Ev.hook Hook.dnsResponses true, Ev.hook Hook.connections true,
       Ev.hook Hook.rejectMarked true, Ev.readLoopEntered] ∧
    Ev.readLoopEntered ∉ mainStartup { loadErr := some "open rules: no such file" } :=
  ⟨(startup_order {}).1 (by decide),
   ((startup_order { loadErr := some "open rules: no such file" }).2.1 (by simp)).1⟩

/-- C1: on every execution path on which `onPacket` returns (does not
fault on a nil rule), the verdict is set exactly once: Accept on the
DNS fast path, Accept on the unresolvable-connection path, and exactly
one Accept or Drop on the resolved path. -/
theorem onPacket_single_verdict (env : OnPacketEnv)
    (h : (onPacket env).faulted = false) :
    (onPacket env).verdicts.length = 1 ∧
    (env.isDNSAnswer = true → (onPacket env).verdicts = [Verdict.Accept]) ∧
    (env.isDNSAnswer = false → env.parsedConn = none →
      (onPacket env).verdicts = [Verdict.Accept]) ∧
    (env.isDNSAnswer = false → env.parsedConn ≠ none →
      (onPacket env).verdicts = [Verdict.Accept] ∨
        (onPacket env).verdicts = [Verdict.Drop]) := by
  obtain ⟨d, pc, fm, ⟨ra, c⟩, addErr⟩ := env
  cases d <;> cases pc <;> cases fm <;> cases c <;> cases ra <;>
    simp_all [onPacket] <;>
    exact em _

/-- Witness for C1: a DNS-answer packet's run does not fault and gets the
single Accept verdict. -/
theorem onPacket_single_verdict_witness :
    (onPacket
        { isDNSAnswer := true, parsedConn := none, firstMatch := none,
          askResult := (none, false), addErr := fun _ => none }).verdicts =
      [Verdict.Accept] :=
  (onPacket_single_verdict
    { isDNSAnswer := true, parsedConn := none, firstMatch := none,
      askResult := (none, false), addErr := fun _ => none } rfl).2.1 rfl

/-- C2: when the oracle is reachable, a returned rule of duration `Once`
leaves the rule store untouched, one of duration `Restart` is appended
with the persist flag false, and one of duration `Always` is appended
with the persist flag true. -/
theorem onPacket_persistence_tiering (env : OnPacketEnv) (con : Connection) (r : Rule)
    (hd : env.isDNSAnswer = false) (hc : env.parsedConn = some con)
    (hm : env.firstMatch = none) (ha : env.askResult = (some r, true)) :
    (r.duration = Duration.Once → (onPacket env).adds = []) ∧
    (r.duration = Duration.Restart → (onPacket env).adds = [(r, false)]) ∧
    (r.duration = Duration.Always → (onPacket env).adds = [(r, true)]) := by
  refine ⟨fun hdur => ?_, fun hdur => ?_, fun hdur => ?_⟩
  · simp [onPacket, hd, hc, hm, ha, hdur]
  · cases h2 : env.addErr false <;> simp [onPacket, hd, hc, hm, ha, hdur, h2]
  · cases h2 : env.addErr true <;> simp [onPacket, hd, hc, hm, ha, hdur, h2]

/-- Witness for C2: a reachable oracle's `Restart` rule is appended with
the persist flag false. -/
theorem onPacket_persistence_tiering_witness :
    (onPacket
        { isDNSAnswer := false, parsedConn := some conW, firstMatch := none,
          askResult := (some ruleRestartW, true), addErr := fun _ => none }).adds =
      [(ruleRestartW, false)] :=
  (onPacket_persistence_tiering
    { isDNSAnswer := false, parsedConn := some conW, firstMatch := none,
      askResult := (some ruleRestartW, true), addErr := fun _ => none }
    conW ruleRestartW rfl rfl rfl rfl).2.1 rfl

/-- C3: when the oracle reports itself unreachable, the rule store is not
mutated whatever the fallback rule's duration, and the fallback rule's
action alone decides the verdict (Allow gives Accept, anything else
Drop). -/
theorem onPacket_unreachable_no_mutation (env : OnPacketEnv) (con : Connection) (r : Rule)
    (hd : env.isDNSAnswer = false) (hc : env.parsedConn = some con)
    (hm : env.firstMatch = none) (ha : env.askResult = (some r, false)) :
    (onPacket env).adds = [] ∧
    (onPacket env).verdicts =
      [if r.action = Action.Allow then Verdict.Accept else Verdict.Drop] := by
  simp [onPacket, hd, hc, hm, ha]

/-- Witness for C3: an unreachable oracle returning a Deny/Always fallback
yields a Drop verdict and an unchanged store. -/
theorem onPacket_unreachable_no_mutation_witness :
    (onPacket
        { isDNSAnswer := false, parsedConn := some conW, firstMatch := none,
          askResult :=
            (some { name := "deny-fallback", action := Action.Deny,
                    duration := Duration.Always, operator := opW }, false),
          addErr := fun _ => none }).adds = [] ∧
    (onPacket
        { isDNSAnswer := false, parsedConn := some conW, firstMatch := none,
          askResult :=
            (some { name := "deny-fallback", action := Action.Deny,
                    duration := Duration.Always, operator := opW }, false),
          addErr := fun _ => none }).verdicts = [Verdict.Drop] := by
  have h := onPacket_unreachable_no_mutation
    { isDNSAnswer := false, parsedConn := some conW, firstMatch := none,
      askResult :=
        (some { name := "deny-fallback", action := Action.Deny,
                duration := Duration.Always, operator := opW }, false),
      addErr := fun _ => none }
    conW
    { name := "deny-fallback", action := Action.Deny, duration := Duration.Always,
      operator := opW } rfl rfl rfl rfl
  exact ⟨h.1, by simpa using h.2⟩

/-- C8: when appending an escalated `Restart` or `Always` rule fails, the
error is logged, no confirmation is emitted, and the verdict still follows
the oracle-returned rule's action (Allow gives Accept, anything else
Drop). -/
theorem onPacket_add_failure_nonblocking (env : OnPacketEnv) (con : Connection) (r : Rule)
    (e : String)
    (hd : env.isDNSAnswer = false) (hc : env.parsedConn = some con)
    (hm : env.firstMatch = none) (ha : env.askResult = (some r, true)) :
    (r.duration = Duration.Restart → env.addErr false = some e →
      (onPacket env).errors = ["Error while adding rule: " ++ e] ∧
      (onPacket env).confirmations = [] ∧
      (onPacket env).verdicts =
        [if r.action = Action.Allow then Verdict.Accept else Verdict.Drop]) ∧
    (r.duration = Duration.Always → env.addErr true = some e →
      (onPacket env).errors = ["Error while saving rule: " ++ e] ∧
      (onPacket env).confirmations = [] ∧
      (onPacket env).verdicts =
        [if r.action = Action.Allow then Verdict.Accept else Verdict.Drop]) := by
  refine ⟨fun hdur h2 => ?_, fun hdur h2 => ?_⟩ <;>
    simp [onPacket, hd, hc, hm, ha, hdur, h2]

/-- Witness for C8: a failing non-durable append still drops a
Deny-ruled connection while logging the append error. -/
theorem onPacket_add_failure_nonblocking_witness :
    (onPacket
        { isDNSAnswer := false, parsedConn := some conW, firstMatch := none,
          askResult :=
            (some { name := "deny-curl", action := Action.Deny,
                    duration := Duration.Restart, operator := opW }, true),
          addErr := fun _ => some "store full" }).errors =
      ["Error while adding rule: store full"] ∧
    (onPacket
        { isDNSAnswer := false, parsedConn := some conW, firstMatch := none,
          askResult :=
            (some { name := "deny-curl", action := Action.Deny,
                    duration := Duration.Restart, operator := opW }, true),
          addErr := fun _ => some "store full" }).verdicts = [Verdict.Drop] := by
  have h := (onPacket_add_failure_nonblocking
    { isDNSAnswer := false, parsedConn := some conW, firstMatch := none,
      askResult :=
        (some { name := "deny-curl", action := Action.Deny,
                duration := Duration.Restart, operator := opW }, true),
      addErr := fun _ => some "store full" }
    conW
    { name := "deny-curl", action := Action.Deny, duration := Duration.Restart,
      operator := opW }
    "store full" rfl rfl rfl rfl).1 rfl rfl
  exact ⟨h.1, by simpa using h.2.2⟩

/-- C10: if no static rule matches and the oracle returns a nil rule,
`onPacket` faults on the nil dereference before any verdict is set,
whatever the reachability flag says. -/
theorem onPacket_nil_ask_faults (env : OnPacketEnv) (con : Connection) (c : Bool)
    (hd : env.isDNSAnswer = false) (hc : env.parsedConn = some con)
    (hm : env.firstMatch = none) (ha : env.askResult = (none, c)) :
    (onPacket env).faulted = true ∧ (onPacket env).verdicts = [] := by
  cases c <;> simp [onPacket, hd, hc, hm, ha]

/-- Witness for C10: a concrete nil-rule answer from a reachable oracle
faults with no verdict. -/
theorem onPacket_nil_ask_faults_witness :
    (onPacket
        { isDNSAnswer := false, parsedConn := some conW, firstMatch := none,
          askResult := (none, true), addErr := fun _ => none }).faulted = true ∧
    (onPacket
        { isDNSAnswer := false, parsedConn := some conW, firstMatch := none,
          askResult := (none, true), addErr := fun _ => none }).verdicts = [] :=
  onPacket_nil_ask_faults
    { isDNSAnswer := false, parsedConn := some conW, firstMatch := none,
      askResult := (none, true), addErr := fun _ => none }
    conW true rfl rfl rfl rfl

/-- C9 counterexample: a successful append of the oracle rule named
"curl-session" emits the confirmation line, but that line does not contain
the rule's name anywhere — it carries the rule's action instead. -/
theorem confirmation_lacks_rule_name :
    (onPacket
        { isDNSAnswer := false, parsedConn := some conW, firstMatch := none,
          askResult := (some ruleRestartW, true), addErr := fun _ => none }).confirmations =
      ["Added new rule: allow if dest.host == example.com"] ∧
    ruleRestartW.name = "curl-session" ∧
    ¬ List.IsInfix "curl-session".data
        "Added new rule: allow if dest.host == example.com".data := by
  refine ⟨rfl, rfl, by decide⟩

/-- C9 amended: on a successful append the confirmation describes the
action taken ("Added" for `Restart`, "Saved" for `Always`), the rule's
action and the rule's operator description; no confirmation is emitted on
a failed append or for duration `Once`. -/
theorem onPacket_confirmation_content (env : OnPacketEnv) (con : Connection) (r : Rule)
    (hd : env.isDNSAnswer = false) (hc : env.parsedConn = some con)
    (hm : env.firstMatch = none) (ha : env.askResult = (some r, true)) :
    (r.duration = Duration.Restart → env.addErr false = none →
      (onPacket env).confirmations =
        ["Added new rule: " ++
          (if r.action = Action.Allow then logGreen (actionName r.action)
           else logRed (actionName r.action)) ++ " if " ++ r.operator.descr]) ∧
    (r.duration = Duration.Always → env.addErr true = none →
      (onPacket env).confirmations =
        ["Saved new rule: " ++
          (if r.action = Action.Allow then logGreen (actionName r.action)
           else logRed (actionName r.action)) ++ " if " ++ r.operator.descr]) ∧
    (r.duration = Duration.Once → (onPacket env).confirmations = []) ∧
    (r.duration = Duration.Restart → env.addErr false ≠ none →
      (onPacket env).confirmations = []) ∧
    (r.duration = Duration.Always → env.addErr true ≠ none →
      (onPacket env).confirmations = []) := by
  refine ⟨fun hdur h2 => ?_, fun hdur h2 => ?_, fun hdur => ?_,
    fun hdur h2 => ?_, fun hdur h2 => ?_⟩
  · simp [onPacket, hd, hc, hm, ha, hdur, h2]
  · simp [onPacket, hd, hc, hm, ha, hdur, h2]
  · simp [onPacket, hd, hc, hm, ha, hdur]
  · obtain ⟨e, h2⟩ := Option.ne_none_iff_exists'.mp h2
    simp [onPacket, hd, hc, hm, ha, hdur, h2]
  · obtain ⟨e, h2⟩ := Option.ne_none_iff_exists'.mp h2
    simp [onPacket, hd, hc, hm, ha, hdur, h2]

/-- Witness for C9 amended: the concrete confirmation for a successfully
added `Restart` rule. -/
theorem onPacket_confirmation_content_witness :
    (onPacket
        { isDNSAnswer := false, parsedConn := some conW, firstMatch := none,
          askResult := (some ruleRestartW, true), addErr := fun _ => none }).confirmations =
      ["Added new rule: allow if dest.host == example.com"] := by
  have h := (onPacket_confirmation_content
    { isDNSAnswer := false, parsedConn := some conW, firstMatch := none,
      askResult := (some ruleRestartW, true), addErr := fun _ => none }
    conW ruleRestartW rfl rfl rfl rfl).1 rfl rfl
  simpa [ruleRestartW, opW, logGreen, actionName] using h

end Daemon
